import Mathlib

/-!
# UiAnalyzer — visual clarity analysis, shallow embedding

Embedding of the visual-analysis components of the UiAnalyzer backend.

Two layers are modelled:

* the module `app.modules.visual_analysis` present in the analyzed sources,
  whose class `AdvancedVisualAnalyzer` exposes `analyze_visual_clarity`
  (weighted aggregation of six sub-analyzers over `page_data`); and
* the newer `analyze_visual(dom, css_snapshot, viewport)` engine, which the
  repository's test suite (`tests/test_visual_analysis.py`) and API layer
  (`app/api/analysis.py`) import from the same module but whose body is not
  among the analyzed sources; it is modelled from the specification
  (definitions carrying a `Modelled from the spec:` doc comment).

Conventions of the embedding:

* Python floats are idealized as exact rationals `ℚ` (reals `ℝ` where the
  WCAG gamma power 2.4 forces irrational values);
* the results of the Python regular-expression scans over CSS value strings
  are represented by small inductive types (`ColorStr`, `LenStr`, ...) whose
  constructors are exactly the syntactic classes the regexes distinguish,
  with a `malformed` constructor for input the regex rejects;
* Python dictionaries with a fixed key set become structures with `Option`
  fields (`none` models both a missing key and a falsy value, which the
  analyzed code treats the same at every relevant site);
* the external `wcag_contrast_ratio` library call inside
  `_calculate_wcag_contrast` is a parameter (`ContrastOracle`) returning
  `Option ℚ`, `none` standing for a raised exception.
-/

set_option linter.unusedVariables false

namespace UiAnalyzer

/-- RGB triple; channels are the (unbounded) naturals Python's `int()`
produces from the regex capture groups. -/
structure RGB where
  r : ℕ
  g : ℕ
  b : ℕ
deriving DecidableEq, Repr

/-- Syntactic classes of a CSS color string, as distinguished by the chain
of regex searches in `_parse_color_to_rgb`: `rgb(r, g, b)`,
`rgba(r, g, b, a)`, 6-digit hex, 3-digit hex, a bare color name, or
anything none of the patterns match. -/
inductive ColorStr where
  | rgbFmt (r g b : ℕ)
  | rgbaFmt (r g b : ℕ)
  | hex6 (d1 d2 d3 d4 d5 d6 : Fin 16)
  | hex3 (d1 d2 d3 : Fin 16)
  | named (s : String)
  | malformed
deriving DecidableEq, Repr

/-- The fixed named-color table of `_parse_color_to_rgb` (resolved through
the `colour` library; `green` is the web color `#008000`). -/
def namedColorTable : String → Option RGB
  | "white" => some ⟨255, 255, 255⟩
  | "black" => some ⟨0, 0, 0⟩
  | "red" => some ⟨255, 0, 0⟩
  | "green" => some ⟨0, 128, 0⟩
  | "blue" => some ⟨0, 0, 255⟩
  | "yellow" => some ⟨255, 255, 0⟩
  | "cyan" => some ⟨0, 255, 255⟩
  | "magenta" => some ⟨255, 0, 255⟩
  | _ => none

/-- `_parse_color_to_rgb`: rgb/rgba formats keep their decimal captures,
a 6-digit hex pairs digits (`d1*16 + d2`, ...), a 3-digit hex duplicates
each digit (`int(c*2, 16) = 17*c`), names go through the fixed table
(lower-cased first), and unmatched syntax yields `none`. -/
def parseColorToRgb : ColorStr → Option RGB
  | .rgbFmt r g b => some ⟨r, g, b⟩
  | .rgbaFmt r g b => some ⟨r, g, b⟩
  | .hex6 d1 d2 d3 d4 d5 d6 => some ⟨d1.val * 16 + d2.val, d3.val * 16 + d4.val, d5.val * 16 + d6.val⟩
  | .hex3 d1 d2 d3 => some ⟨17 * d1.val, 17 * d2.val, 17 * d3.val⟩
  | .named s => namedColorTable s.toLower
  | .malformed => none

/-- CSS length units recognized by the font-size regexes. -/
inductive CssUnit where
  | px
  | pt
  | em
  | rem
  | percent
deriving DecidableEq, Repr

/-- A CSS length string as classified by the regex
`([0-9.]+)(px|pt|em|rem|%)?`: a numeric value with an optional unit, or
input on which the match or the `float(...)` conversion fails. -/
inductive LenStr where
  | lit (v : ℚ) (u : Option CssUnit)
  | malformed
deriving DecidableEq, Repr

/-- `_convert_to_pixels`: `pt` scales by the literal 1.33333, `em`/`rem`
by the fixed 16px base, `%` by 16/100; a missing unit defaults to `px`
(the caller substitutes `'px'`), and `px` is the identity. -/
def convertToPixels (size : ℚ) : Option CssUnit → ℚ
  | some .px => size
  | some .pt => size * (133333 / 100000)
  | some .em => size * 16
  | some .rem => size * 16
  | some .percent => size / 100 * 16
  | none => size

/-- `_parse_font_size`: `none` when the regex / float conversion fails,
otherwise the pixel conversion of the captured value and unit. -/
def parseFontSize : LenStr → Option ℚ
  | .lit v u => some (convertToPixels v u)
  | .malformed => none

/-- Syntactic classes of a CSS line-height string as `_parse_line_height`
distinguishes them: the literal `normal`, a value carrying `px`, a value
carrying `%`, a bare unitless number, or input `float(...)` rejects. -/
inductive LineHeightStr where
  | normal
  | pxVal (v : ℚ)
  | percentVal (v : ℚ)
  | unitless (v : ℚ)
  | malformed
deriving DecidableEq, Repr

/-- `_parse_line_height` of `AdvancedVisualAnalyzer`: `normal` is 1.2; a
`px` value is divided by the font size in pixels, which is the parsed
font size unless that parse fails or yields the falsy `0.0` (Python's
`self._parse_font_size(font_size) or 16`), in which case 16; a `%` value
is divided by 100; a unitless value is used as-is; anything else is
`none`. -/
def parseLineHeightOld (lh : LineHeightStr) (fontSize : LenStr) : Option ℚ :=
  match lh with
  | .normal => some (6 / 5)
  | .pxVal v =>
      let fsPx :=
        match parseFontSize fontSize with
        | none => 16
        | some f => if f = 0 then 16 else f
      some (v / fsPx)
  | .percentVal v => some (v / 100)
  | .unitless v => some v
  | .malformed => none

/-- Substring test on character lists, the semantics of Python's
`sub in s`. -/
def charsContain (hay sub : List Char) : Bool :=
  (List.range (hay.length + 1)).any fun i => sub.isPrefixOf (hay.drop i)

/-- Substring test on strings (`sub in s` in Python). -/
def strContains (hay sub : String) : Bool :=
  charsContain hay.data sub.data

/-- A CSS spacing (padding/margin) string as the regex
`([0-9.]+)(px|em|rem|%)?` of `_parse_spacing_values` reads it: the list of
numeric captures with optional units, or input on which a `float(...)`
conversion raises (the whole function then returns the empty list). -/
inductive SpacingStr where
  | vals (l : List (ℚ × Option CssUnit))
  | malformed
deriving DecidableEq, Repr

/-- `_parse_spacing_values`: each captured value converted to pixels; the
empty list on failure. -/
def parseSpacingValues : SpacingStr → List ℚ
  | .vals l => l.map fun p => convertToPixels p.1 p.2
  | .malformed => []

/-- Minimum of a rational list with Python's `min(xs) if xs else 0`
guard. -/
def minQOrZero : List ℚ → ℚ
  | [] => 0
  | x :: xs => xs.foldl min x

/-! ## The `AdvancedVisualAnalyzer` module (present in the sources)

The analyzed `visual_analysis.py` defines `AdvancedVisualAnalyzer` with
mutable per-instance state (`self.issues`, reset at the top of every
`analyze_visual_clarity` call) and six sub-analyzers combined by fixed
weights. Dictionaries arriving in `page_data` become the structures below;
the quantities the module reads off the BeautifulSoup parse of
`html_content` (element count, nesting depth, class-pattern hits,
viewport-meta presence) are carried as input fields, standing for the
parser's output on that page. -/

/-- One issue dict appended to `self.issues`. Only the fields the module
itself branches on or that identify the finding are carried: `type`,
`severity`, the `element` label, and the numeric measurement embedded in
the message (`none` when the message holds no measurement). -/
structure OldIssue where
  type : String
  severity : String
  element : String := ""
  measured : Option ℚ := none
deriving DecidableEq, Repr

/-- A computed-style dict for one selector, keys as
`AdvancedVisualAnalyzer` reads them. `none` models a missing key and a
falsy value (empty string), which the module treats alike at every
lookup site. -/
structure StylesOld where
  backgroundColor : Option ColorStr := none
  color : Option ColorStr := none
  fontSize : Option LenStr := none
  fontWeight : Option String := none
  lineHeight : Option LineHeightStr := none
  padding : Option SpacingStr := none
  margin : Option SpacingStr := none
deriving DecidableEq, Repr

/-- The `position` dict of a CTA entry (`width`/`height` read with
default 0). -/
structure PositionOld where
  width : ℚ := 0
  height : ℚ := 0
deriving DecidableEq, Repr

/-- One entry of `dom_analysis.ctas`. -/
structure CtaOld where
  text : String := ""
  styles : StylesOld := {}
  position : PositionOld := {}
  aboveFold : Bool := false
  isPrimary : Bool := false
deriving DecidableEq, Repr

/-- One entry of `dom_analysis.headings` (only the `tag` key is read by
the contrast analyzer). -/
structure HeadingOld where
  tag : String := "h1"
  text : String := ""
deriving DecidableEq, Repr

/-- One entry of `dom_analysis.images` (only `alt` is read). -/
structure ImageOld where
  alt : String := ""
deriving DecidableEq, Repr

/-- One entry of `css_data`: the module only reads the font-size
declarations matched by `font-size:\s*([0-9.]+)(px|pt|em|rem|%)` (entries
whose `float(...)` conversion fails are dropped, mirroring the
`except ... continue`), whether `:focus` occurs in the css text, and the
selector label. -/
structure CssRule where
  fontSizeDecls : List (ℚ × CssUnit) := []
  hasFocusStyle : Bool := false
  selector : String := ""
deriving DecidableEq, Repr

/-- The `page_data` argument of `analyze_visual_clarity`, restricted to
the keys the module reads. `totalElements`, `maxDepth` and the four
class/meta flags carry what the module computes from the BeautifulSoup
parse of `html_content`. -/
structure PageDataOld where
  ctas : List CtaOld := []
  headings : List HeadingOld := []
  images : List ImageOld := []
  computedStyles : List (String × StylesOld) := []
  cssData : List CssRule := []
  textLength : ℕ := 0
  totalElements : ℕ := 0
  maxDepth : ℕ := 0
  hasGridClasses : Bool := false
  hasFlexClasses : Bool := false
  hasViewportMeta : Bool := false
  hasResponsiveImages : Bool := false
deriving DecidableEq, Repr

/-- First-match lookup in an association list, the semantics of a Python
dict `get` (keys are unique in a dict; on the model's lists the first
binding wins). -/
def lookupStyles (sel : String) (cs : List (String × StylesOld)) : Option StylesOld :=
  (cs.find? fun p => p.1 = sel).map Prod.snd

/-- The external `wcag_contrast_ratio` computation inside
`_calculate_wcag_contrast`, as an oracle: `none` models the library call
raising. -/
def ContrastOracle : Type := RGB → RGB → Option ℚ

/-- `_calculate_wcag_contrast`: the library result, or the fallback 4.5
when the call raises. -/
def calculateWcagContrast (oracle : ContrastOracle) (c1 c2 : RGB) : ℚ :=
  (oracle c1 c2).getD (9 / 2)

/-- Per-CTA body of the `ctas[:10]` loop of `_analyze_wcag_contrast`:
style lookups with defaults white background / black text / `16px` font;
the element is skipped when either color fails to parse, or (via the
`TypeError` at `font_size >= 18`, swallowed by the `except`) when the font
size fails to parse. Below the AA threshold (3.0 large / 4.5 normal) the
penalty is 15 with severity `high` when the ratio is under 3.0, else 10
with `medium`; between AA and AAA (4.5 large / 7.0 normal) a `low` issue
is recorded with no penalty. -/
def ctaContrastStep (oracle : ContrastOracle) (cta : CtaOld) : ℚ × List OldIssue :=
  let st := cta.styles
  let bgStr := st.backgroundColor.getD (.rgbFmt 255 255 255)
  let fgStr := st.color.getD (.rgbFmt 0 0 0)
  match parseColorToRgb bgStr, parseColorToRgb fgStr with
  | some bg, some fg =>
    match parseFontSize (st.fontSize.getD (.lit 16 (some .px))) with
    | none => (0, [])
    | some fontSizePx =>
      let ratio := calculateWcagContrast oracle bg fg
      let isLargeText : Bool :=
        18 ≤ fontSizePx ∨ (14 ≤ fontSizePx ∧ strContains (st.fontWeight.getD "").toLower "bold")
      let aaThreshold : ℚ := if isLargeText then 3 else 9 / 2
      let aaaThreshold : ℚ := if isLargeText then 9 / 2 else 7
      if ratio < aaThreshold then
        if ratio < 3 then
          (15, [⟨"contrast", "high", "CTA: " ++ cta.text.take 30, some ratio⟩])
        else
          (10, [⟨"contrast", "medium", "CTA: " ++ cta.text.take 30, some ratio⟩])
      else if ratio < aaaThreshold then
        (0, [⟨"contrast", "low", "CTA: " ++ cta.text.take 30, some ratio⟩])
      else
        (0, [])
  | _, _ => (0, [])

/-- Per-heading body of the `headings[:5]` loop of
`_analyze_wcag_contrast`: styles are looked up in `computed_styles` under
the lower-cased tag; an absent or empty dict (both falsy) skips the
heading; a ratio under 4.5 costs 8 points with a `medium` issue. -/
def headingContrastStep (oracle : ContrastOracle) (cs : List (String × StylesOld))
    (heading : HeadingOld) : ℚ × List OldIssue :=
  match lookupStyles heading.tag.toLower cs with
  | none => (0, [])
  | some st =>
    let bgStr := st.backgroundColor.getD (.rgbFmt 255 255 255)
    let fgStr := st.color.getD (.rgbFmt 0 0 0)
    match parseColorToRgb bgStr, parseColorToRgb fgStr with
    | some bg, some fg =>
      let ratio := calculateWcagContrast oracle bg fg
      if ratio < 9 / 2 then
        (8, [⟨"contrast", "medium", "Heading: " ++ heading.text.take 40, some ratio⟩])
      else
        (0, [])
    | _, _ => (0, [])

/-- `_analyze_wcag_contrast`: the first 10 CTAs and the first 5 headings
are examined; the score starts at 100, loses each step's penalty, and is
floored at 0 at the end. -/
def analyzeWcagContrast (oracle : ContrastOracle) (pd : PageDataOld) : ℚ × List OldIssue :=
  let ctaResults := (pd.ctas.take 10).map (ctaContrastStep oracle)
  let headingResults := (pd.headings.take 5).map (headingContrastStep oracle pd.computedStyles)
  let penalty := (ctaResults.map Prod.fst).sum + (headingResults.map Prod.fst).sum
  (max 0 (100 - penalty), (ctaResults.map Prod.snd).flatten ++ (headingResults.map Prod.snd).flatten)

/-- Pixel sizes of all `font-size` declarations found in `css_data` (the
`font_sizes` list of `_analyze_typography_detailed`). -/
def cssDeclSizes (pd : PageDataOld) : List ℚ :=
  (pd.cssData.map fun r => r.fontSizeDecls.map fun d => convertToPixels d.1 (some d.2)).flatten

/-- The `small_fonts` count of `_analyze_typography_detailed`: css
declarations under 14px, plus computed-style font sizes that parse to a
truthy value under 14px (`if size_px and size_px < 14`). -/
def smallFontCount (pd : PageDataOld) : ℕ :=
  (cssDeclSizes pd).countP (fun v => v < 14) +
    pd.computedStyles.countP fun p =>
      match p.2.fontSize with
      | none => false
      | some ls =>
        match parseFontSize ls with
        | none => false
        | some v => decide (v ≠ 0 ∧ v < 14)

/-- Per-selector body of `_analyze_line_height`: runs when both
`lineHeight` and `fontSize` are present (truthy); a parsed ratio that is
truthy and under 1.2 counts one issue of severity `low`. -/
def lineHeightStep (sel : String) (st : StylesOld) : ℕ × List OldIssue :=
  match st.lineHeight, st.fontSize with
  | some lh, some fs =>
    match parseLineHeightOld lh fs with
    | some v =>
      if v ≠ 0 ∧ v < 6 / 5 then
        (1, [⟨"typography", "low", "Line Height (" ++ sel ++ ")", some v⟩])
      else (0, [])
    | none => (0, [])
  | _, _ => (0, [])

/-- `_analyze_line_height`: the issue count and issues over all
computed-style entries. -/
def analyzeLineHeight (cs : List (String × StylesOld)) : ℕ × List OldIssue :=
  let rs := cs.map fun p => lineHeightStep p.1 p.2
  ((rs.map Prod.fst).sum, (rs.map Prod.snd).flatten)

/-- `_analyze_typography_detailed`: more than 3 small fonts costs 25
(severity `high`), otherwise any small font costs 10 (`medium`); more
than 10 distinct css font sizes costs 15; each line-height issue costs 5;
the score is floored at 0. -/
def analyzeTypographyDetailed (pd : PageDataOld) : ℚ × List OldIssue :=
  let declSizes := cssDeclSizes pd
  let small := smallFontCount pd
  let fontPenalty : ℚ := if 3 < small then 25 else if 0 < small then 10 else 0
  let fontIssues : List OldIssue :=
    if 3 < small then [⟨"typography", "high", "Font Sizes", some small⟩]
    else if 0 < small then [⟨"typography", "medium", "Font Sizes", some small⟩]
    else []
  let uniqCount := declSizes.dedup.length
  let consPenalty : ℚ := if declSizes = [] then 0 else if 10 < uniqCount then 15 else 0
  let consIssues : List OldIssue :=
    if declSizes = [] then []
    else if 10 < uniqCount then [⟨"typography", "medium", "Font Consistency", some uniqCount⟩]
    else []
  let lh := analyzeLineHeight pd.computedStyles
  (max 0 (100 - (fontPenalty + consPenalty + 5 * lh.1)), fontIssues ++ consIssues ++ lh.2)

/-- Per-CTA body of the `ctas[:5]` loop of
`_analyze_cta_visibility_advanced` (index `i` and the truthiness of
`above_fold_ctas` are captured from the enclosing scope): a small box
costs 8, long text costs 5, and the first CTA yields an informational
issue (no penalty) when it is not marked primary while some CTA is above
the fold. -/
def ctaVisStep (aboveFoldAny : Bool) (i : ℕ) (cta : CtaOld) : ℚ × List OldIssue :=
  let sizeHit := cta.position.width < 80 ∨ cta.position.height < 35
  let textHit := 25 < cta.text.length
  let primaryHit := i = 0 ∧ ¬cta.isPrimary ∧ aboveFoldAny
  ((if sizeHit then 8 else 0) + (if textHit then 5 else 0),
   (if sizeHit then [⟨"cta_visibility", "medium", "CTA: " ++ cta.text.take 20, none⟩] else []) ++
   (if textHit then [⟨"cta_visibility", "low", "CTA Text", some cta.text.length⟩] else []) ++
   (if primaryHit then [⟨"cta_visibility", "low", "Primary CTA", none⟩] else []))

/-- `_analyze_cta_visibility_advanced`: no CTAs at all returns 70
directly; otherwise a missing above-fold CTA costs 25, the first five
CTAs are scanned per `ctaVisStep`, more than 8 CTAs costs 15, and the
score is floored at 0. -/
def analyzeCtaVisibility (pd : PageDataOld) : ℚ × List OldIssue :=
  if pd.ctas = [] then
    (100 - 30, [⟨"cta_visibility", "high", "CTAs", none⟩])
  else
    let aboveFoldCtas := pd.ctas.filter (·.aboveFold)
    let foldPenalty : ℚ := if aboveFoldCtas = [] then 25 else 0
    let foldIssues : List OldIssue :=
      if aboveFoldCtas = [] then [⟨"cta_visibility", "high", "Primary CTA", none⟩] else []
    let stepResults := (pd.ctas.take 5).enum.map fun p => ctaVisStep (¬aboveFoldCtas.isEmpty) p.1 p.2
    let countPenalty : ℚ := if 8 < pd.ctas.length then 15 else 0
    let countIssues : List OldIssue :=
      if 8 < pd.ctas.length then
        [⟨"cta_visibility", "medium", "CTA Count", some pd.ctas.length⟩]
      else []
    (max 0 (100 - (foldPenalty + (stepResults.map Prod.fst).sum + countPenalty)),
     foldIssues ++ (stepResults.map Prod.snd).flatten ++ countIssues)

/-- `_analyze_layout_heuristics`: more than 500 elements costs 15, depth
over 12 costs 10; grid and flex class hits add 5 each, a viewport meta
tag adds 10 and responsive image classes add 5; the result is clamped to
at most 100 after the floor at 0. -/
def analyzeLayoutHeuristics (pd : PageDataOld) : ℚ × List OldIssue :=
  let complexityPenalty : ℚ := if 500 < pd.totalElements then 15 else 0
  let complexityIssues : List OldIssue :=
    if 500 < pd.totalElements then [⟨"layout", "medium", "DOM Complexity", some pd.totalElements⟩]
    else []
  let depthPenalty : ℚ := if 12 < pd.maxDepth then 10 else 0
  let depthIssues : List OldIssue :=
    if 12 < pd.maxDepth then [⟨"layout", "low", "Nesting Depth", some pd.maxDepth⟩] else []
  let layoutBonus : ℚ :=
    (if pd.hasGridClasses then 5 else 0) + (if pd.hasFlexClasses then 5 else 0)
  let responsiveBonus : ℚ :=
    (if pd.hasViewportMeta then 10 else 0) + (if pd.hasResponsiveImages then 5 else 0)
  (min 100 (max 0 (100 - complexityPenalty - depthPenalty + layoutBonus + responsiveBonus)),
   complexityIssues ++ depthIssues)

/-- The `cramped_elements` count of `_analyze_spacing_density`: entries
whose minimal padding and minimal margin are both under 8px (a missing
key defaults to the string `'0'`, which parses to the single value 0). -/
def crampedCount (cs : List (String × StylesOld)) : ℕ :=
  cs.countP fun p =>
    let padVals := parseSpacingValues (p.2.padding.getD (.vals [(0, none)]))
    let marVals := parseSpacingValues (p.2.margin.getD (.vals [(0, none)]))
    decide (minQOrZero padVals < 8 ∧ minQOrZero marVals < 8)

/-- `_analyze_spacing_density`: more than 5 cramped entries costs 20;
more than 20 images together with text over 5000 characters costs 15;
floored at 0. -/
def analyzeSpacingDensity (pd : PageDataOld) : ℚ × List OldIssue :=
  let cramped := crampedCount pd.computedStyles
  let crampedPenalty : ℚ := if 5 < cramped then 20 else 0
  let crampedIssues : List OldIssue :=
    if 5 < cramped then [⟨"spacing", "medium", "Layout Spacing", some cramped⟩] else []
  let dense := 20 < pd.images.length ∧ 5000 < pd.textLength
  ((max 0 (100 - (crampedPenalty + if dense then 15 else 0))),
   crampedIssues ++ if dense then [⟨"spacing", "medium", "Content Density", none⟩] else [])

/-- `_analyze_visual_accessibility`: images whose stripped `alt` text is
empty cost `min(20, 3 * count)`; absent `:focus` styles cost 15; floored
at 0. -/
def analyzeVisualAccessibility (pd : PageDataOld) : ℚ × List OldIssue :=
  let noAlt := pd.images.countP fun im => im.alt.trim = ""
  let altPenalty : ℚ := if 0 < noAlt then min 20 (3 * (noAlt : ℚ)) else 0
  let altIssues : List OldIssue :=
    if 0 < noAlt then [⟨"accessibility", "high", "Image Alt Text", some noAlt⟩] else []
  let hasFocus := pd.cssData.any (·.hasFocusStyle)
  ((max 0 (100 - (altPenalty + if hasFocus then 0 else 15))),
   altIssues ++ if hasFocus then [] else [⟨"accessibility", "medium", "Focus Indicators", none⟩])

/-- Round-half-to-even on rationals, the idealization of Python's
`round` on a float. -/
def roundHalfEven (y : ℚ) : ℤ :=
  if y - ⌊y⌋ = 1 / 2 then (if Even ⌊y⌋ then ⌊y⌋ else ⌊y⌋ + 1) else round y

/-- Python's `round(x, 1)` on the rational idealization. -/
def pythonRound1 (x : ℚ) : ℚ :=
  (roundHalfEven (x * 10) : ℚ) / 10

/-- The mutable per-instance state of `AdvancedVisualAnalyzer` that
survives between calls: the `self.issues` accumulator
(`self.score_components` is written but never read). -/
structure AnalyzerState where
  issues : List OldIssue := []
deriving DecidableEq, Repr

/-- The dictionary `analyze_visual_clarity` returns, restricted to the
score fields and issues (`recommendations`, `wcag_compliance` and
`visual_metrics` are derived from the same data). -/
structure OldResult where
  visualScore : ℚ
  contrastScore : ℚ
  typographyScore : ℚ
  ctaScore : ℚ
  layoutScore : ℚ
  spacingScore : ℚ
  accessibilityScore : ℚ
  issues : List OldIssue
deriving DecidableEq, Repr

/-- `analyze_visual_clarity`: the incoming instance state is discarded
(`self.issues = []` on entry), the six analyzers run in order (contrast,
typography, CTA visibility, layout, spacing, accessibility) appending
their issues, and the overall score is the weighted sum with weights
0.25, 0.20, 0.20, 0.15, 0.10, 0.10 rounded to one decimal place. -/
def analyzeVisualClarity (oracle : ContrastOracle) (st : AnalyzerState) (pd : PageDataOld) :
    AnalyzerState × OldResult :=
  let con := analyzeWcagContrast oracle pd
  let typ := analyzeTypographyDetailed pd
  let cta := analyzeCtaVisibility pd
  let lay := analyzeLayoutHeuristics pd
  let spa := analyzeSpacingDensity pd
  let acc := analyzeVisualAccessibility pd
  let allIssues := con.2 ++ typ.2 ++ cta.2 ++ lay.2 ++ spa.2 ++ acc.2
  let weighted :=
    con.1 * (25 / 100) + typ.1 * (20 / 100) + cta.1 * (20 / 100) +
      lay.1 * (15 / 100) + spa.1 * (10 / 100) + acc.1 * (10 / 100)
  (⟨allIssues⟩,
   { visualScore := pythonRound1 weighted
     contrastScore := con.1
     typographyScore := typ.1
     ctaScore := cta.1
     layoutScore := lay.1
     spacingScore := spa.1
     accessibilityScore := acc.1
     issues := allIssues })

/-! ## The `analyze_visual` engine (modelled from the spec)

The `analyze_visual(dom, css_snapshot, viewport)` entry point that
`tests/test_visual_analysis.py` and `app/api/analysis.py` import from
`app.modules.visual_analysis` is not among the analyzed sources; the
definitions below model it from the specification's §3–§4.8 (each doc
comment cites its section). Scores stay in `ℚ` except where the WCAG
relative-luminance power 2.4 forces `ℝ`. -/

/-- Modelled from the spec: the `(width, height)` viewport pair of the
missing `analyze_visual` engine (§3). -/
structure Viewport where
  width : ℕ
  height : ℕ
deriving DecidableEq, Repr

/-- Modelled from the spec: a viewport is mobile exactly when its width
is under 768 (§3). -/
def isMobileVp (vp : Viewport) : Bool :=
  vp.width < 768

/-- Modelled from the spec: the `bbox` of an element snapshot, page
coordinates in pixels (§3). -/
structure Rect where
  x : ℚ := 0
  y : ℚ := 0
  width : ℚ := 0
  height : ℚ := 0
deriving DecidableEq, Repr

/-- Modelled from the spec: the style map of an element snapshot of the
missing engine, restricted to the properties its analyzers read (§3). -/
structure EngineStyles where
  color : Option ColorStr := none
  backgroundColor : Option ColorStr := none
  fontSize : Option LenStr := none
  fontWeight : Option String := none
  lineHeight : Option LineHeightStr := none
deriving DecidableEq, Repr

/-- Modelled from the spec: one `ElementSnapshot` of the missing engine
(§3). -/
structure ElementSnapshot where
  selector : String := ""
  text : String := ""
  styles : EngineStyles := {}
  bbox : Rect := {}
deriving DecidableEq, Repr

/-- Modelled from the spec: the `css_snapshot` argument of the missing
engine — computed styles by selector plus the element list (§6). -/
structure Snapshot where
  computedStyles : List (String × EngineStyles) := []
  elements : List ElementSnapshot := []
deriving DecidableEq, Repr

/-- Modelled from the spec: one issue of the missing engine's report
(§3). -/
structure Issue where
  type : String
  selector : String
  bbox : Rect
  severity : String
  message : String
deriving DecidableEq, Repr

/-- Modelled from the spec: the missing engine's report — integer score,
ordered issues, flat feature map (§3; the boolean mobile flag is encoded
as 1/0). -/
structure VisualReport where
  score : ℤ
  issues : List Issue
  features : List (String × ℝ)

/-- First-match lookup of a selector in the engine's computed-style
snapshot. -/
def lookupEngineStyles (sel : String) (cs : List (String × EngineStyles)) :
    Option EngineStyles :=
  (cs.find? fun p => p.1 = sel).map Prod.snd

/-- Modelled from the spec: per-property resolution of an element's
styles, the style snapshot serving as secondary source when the
element's own map lacks the property (§3, `StyleSnapshot`). -/
def effStyles (snap : Snapshot) (e : ElementSnapshot) : EngineStyles :=
  match lookupEngineStyles e.selector snap.computedStyles with
  | none => e.styles
  | some fb =>
    { color := e.styles.color <|> fb.color
      backgroundColor := e.styles.backgroundColor <|> fb.backgroundColor
      fontSize := e.styles.fontSize <|> fb.fontSize
      fontWeight := e.styles.fontWeight <|> fb.fontWeight
      lineHeight := e.styles.lineHeight <|> fb.lineHeight }

/-- Modelled from the spec: `parseFontSizePx` of the missing engine —
like `_parse_font_size` but totalized, missing or unparseable input
defaulting to 16px (§4.1). -/
def parseFontSizePx (l : LenStr) : ℚ :=
  (parseFontSize l).getD 16

/-- Modelled from the spec: the per-channel sRGB gamma correction of the
WCAG relative-luminance computation (§4.1). -/
noncomputable def srgbGamma (c : ℝ) : ℝ :=
  if c ≤ 0.03928 then c / 12.92 else ((c + 0.055) / 1.055) ^ (2.4 : ℝ)

/-- Modelled from the spec: WCAG relative luminance of an RGB triple
(§4.1). -/
noncomputable def relLuminance (c : RGB) : ℝ :=
  0.2126 * srgbGamma ((c.r : ℝ) / 255) + 0.7152 * srgbGamma ((c.g : ℝ) / 255) +
    0.0722 * srgbGamma ((c.b : ℝ) / 255)

/-- Modelled from the spec: the exact WCAG contrast-ratio formula
`(max(L1,L2)+0.05) / (min(L1,L2)+0.05)` of the missing engine (§4.1). -/
noncomputable def wcagContrast (c1 c2 : RGB) : ℝ :=
  (max (relLuminance c1) (relLuminance c2) + 0.05) /
    (min (relLuminance c1) (relLuminance c2) + 0.05)

/-- Modelled from the spec: foreground resolution of the contrast
analyzer — the `color` property, skipped (`none`) when missing or
unparseable (§4.2). -/
def resolveFg (st : EngineStyles) : Option RGB :=
  st.color.bind parseColorToRgb

/-- Modelled from the spec: background resolution of the contrast
analyzer — `backgroundColor`, defaulting to white when absent or
`transparent`, `none` when present but unparseable (§4.2). -/
def resolveBg (st : EngineStyles) : Option RGB :=
  match st.backgroundColor with
  | none => some ⟨255, 255, 255⟩
  | some (.named s) =>
      if s.toLower = "transparent" then some ⟨255, 255, 255⟩
      else parseColorToRgb (.named s)
  | some c => parseColorToRgb c

/-- Modelled from the spec: the large-text test — 18px and up, or 14px
and up with a bold-equivalent weight (§4.2). -/
def isLargeText (st : EngineStyles) : Bool :=
  let fs := parseFontSizePx (st.fontSize.getD .malformed)
  decide (18 ≤ fs) || (decide (14 ≤ fs) && strContains (st.fontWeight.getD "").toLower "bold")

open scoped Classical in
/-- Modelled from the spec: the threshold decision of the contrast
analyzer for one examined element — penalty and optional issue severity
as a function of the large-text flag and the contrast ratio: below AA
(3.0 large / 4.5 normal) costs 15 with severity `high` when the ratio is
under 3.0 and otherwise 10 with `medium`; between AA and AAA (4.5 large
/ 7.0 normal) costs 3 with severity `low` (§4.2). -/
noncomputable def contrastDecision (large : Bool) (r : ℝ) : ℝ × Option String :=
  if r < (if large then 3 else 4.5) then
    if r < 3 then (15, some "high") else (10, some "medium")
  else if r < (if large then 4.5 else 7) then (3, some "low")
  else (0, none)

/-- Modelled from the spec: the contrast analyzer's work on one element —
elements with empty text or an unresolvable color pair contribute
nothing (§4.2). -/
noncomputable def contrastStep (snap : Snapshot) (e : ElementSnapshot) : ℝ × Option String :=
  if e.text = "" then (0, none)
  else
    let st := effStyles snap e
    match resolveFg st, resolveBg st with
    | some fg, some bg => contrastDecision (isLargeText st) (wcagContrast fg bg)
    | _, _ => (0, none)

/-- Modelled from the spec: the contrast analyzer — score starts at 100,
loses each element's penalty, floored at 0 (§4.2). -/
noncomputable def contrastAnalyze (snap : Snapshot) : ℝ × List Issue :=
  let pen := (snap.elements.map fun e => (contrastStep snap e).1).sum
  let issues := snap.elements.filterMap fun e =>
    ((contrastStep snap e).2).map fun sev =>
      { type := "contrast", selector := e.selector, bbox := e.bbox, severity := sev
        message := "Text contrast fails the WCAG threshold for this element" }
  (max 0 (100 - pen), issues)

/-- Modelled from the spec: the line-height resolution of the missing
engine — `normal` is 1.2, a `px` value is divided by the font size in
pixels, a `%` value by 100, a unitless value is used as-is (§4.3). -/
def parseLineHeightSpec (lh : LineHeightStr) (fontPx : ℚ) : Option ℚ :=
  match lh with
  | .normal => some (6 / 5)
  | .pxVal v => some (v / fontPx)
  | .percentVal v => some (v / 100)
  | .unitless v => some v
  | .malformed => none

/-- Modelled from the spec: the line-height check of the typography
analyzer — a resolved ratio under 1.3 is one `medium` finding with
penalty 5 (§4.3b). -/
def lineHeightCheck (lh : Option ℚ) : ℚ × List (String × String) :=
  match lh with
  | some r =>
      if r < 13 / 10 then (5, [("medium", "Line height below 1.3 is too tight")]) else (0, [])
  | none => (0, [])

/-- Modelled from the spec: the font-size check of the typography
analyzer — minimum 14px on mobile viewports, 16px otherwise; below 12px
a `high` finding (−12), otherwise a `medium` one (−8) (§4.3a). -/
def fontSizeCheck (mobile : Bool) (fs : ℚ) : ℚ × List (String × String) :=
  let minFs : ℚ := if mobile then 14 else 16
  if fs < minFs then
    if fs < 12 then (12, [("high", "Font size below 12px is unreadable")])
    else (8, [("medium", "Font size below the recommended minimum")])
  else (0, [])

/-- Modelled from the spec: the line-length check of the typography
analyzer — `charsPerLine = bbox.width / (fontSize * 0.6)`, over 90 a
`low` finding (−5) (§4.3c). -/
def lineLengthCheck (width fs : ℚ) : ℚ × List (String × String) :=
  if 90 < width / (fs * (6 / 10)) then (5, [("low", "Line length above 90 characters")])
  else (0, [])

/-- Pixel font size an element resolves to: its `fontSize` property
(style snapshot as secondary source), 16 when missing or unparseable
(§4.1, §4.3). -/
def elemFontPx (snap : Snapshot) (e : ElementSnapshot) : ℚ :=
  parseFontSizePx ((effStyles snap e).fontSize.getD .malformed)

/-- Unitless line-height ratio an element resolves to: its `lineHeight`
property resolved against the element's font size, `none` when the
property is absent or unparseable (§4.3b). -/
def elemLineHeightRatio (snap : Snapshot) (e : ElementSnapshot) : Option ℚ :=
  (effStyles snap e).lineHeight.bind fun l => parseLineHeightSpec l (elemFontPx snap e)

/-- Modelled from the spec: the typography analyzer's three independent,
additive checks on one text-bearing element — font size against the
viewport-dependent minimum, line height under 1.3, and an estimated line
length over 90 characters (§4.3). -/
def typographyStep (mobile : Bool) (snap : Snapshot) (e : ElementSnapshot) :
    ℚ × List (String × String) :=
  if e.text = "" then (0, [])
  else
    let fontFindings := fontSizeCheck mobile (elemFontPx snap e)
    let lhFindings := lineHeightCheck (elemLineHeightRatio snap e)
    let lengthFindings := lineLengthCheck e.bbox.width (elemFontPx snap e)
    (fontFindings.1 + lhFindings.1 + lengthFindings.1,
     fontFindings.2 ++ lhFindings.2 ++ lengthFindings.2)

/-- Modelled from the spec: the typography analyzer (§4.3). -/
def typographyAnalyze (mobile : Bool) (snap : Snapshot) : ℚ × List Issue :=
  let rs := snap.elements.map fun e => (e, typographyStep mobile snap e)
  let pen := (rs.map fun p => p.2.1).sum
  let issues := (rs.map fun p => p.2.2.map fun f =>
    { type := "typography", selector := p.1.selector, bbox := p.1.bbox
      severity := f.1, message := f.2 : Issue }).flatten
  (max 0 (100 - pen), issues)

/-- Modelled from the spec: the interactive-role test — substring match
of the indicative fragments on the opaque selector string (§4.4, §9). -/
def isInteractive (sel : String) : Bool :=
  strContains sel "a" || strContains sel "button" || strContains sel "input" ||
    strContains sel "[onclick]" || strContains sel "role=button"

/-- An element with zero width or height is non-contributing for the
geometric analyzers (§3 invariant). -/
def sizedEl (e : ElementSnapshot) : Bool :=
  decide (e.bbox.width ≠ 0 ∧ e.bbox.height ≠ 0)

/-- Modelled from the spec: the tap-target analyzer's decision on one
interactive element — smaller dimension under 32px is `high` (−15),
under 44px is `medium` (−10) (§4.4). -/
def tapTargetStep (e : ElementSnapshot) : ℚ × Option String :=
  if sizedEl e && isInteractive e.selector then
    let m := min e.bbox.width e.bbox.height
    if m < 32 then (15, some "high")
    else if m < 44 then (10, some "medium")
    else (0, none)
  else (0, none)

/-- Modelled from the spec: the tap-target analyzer — a no-op with score
100 and no issues when the viewport is not mobile; otherwise interactive
elements are compared against the 44px minimum (§4.4). -/
def tapTargetAnalyze (vp : Viewport) (elems : List ElementSnapshot) : ℚ × List Issue :=
  if ¬isMobileVp vp then (100, [])
  else
    let pen := (elems.map fun e => (tapTargetStep e).1).sum
    let issues := elems.filterMap fun e =>
      ((tapTargetStep e).2).map fun sev =>
        { type := "tap_target", selector := e.selector, bbox := e.bbox, severity := sev
          message := "Interactive element below the 44x44px touch-target minimum" }
    (max 0 (100 - pen), issues)

/-- Modelled from the spec: strict bounding-box overlap (§4.5). -/
def boxesOverlap (a b : Rect) : Bool :=
  !(decide (a.x + a.width ≤ b.x) || decide (b.x + b.width ≤ a.x) ||
    decide (a.y + a.height ≤ b.y) || decide (b.y + b.height ≤ a.y))

/-- Area of the intersection rectangle of two overlapping boxes (§4.5). -/
def interArea (a b : Rect) : ℚ :=
  (min (a.x + a.width) (b.x + b.width) - max a.x b.x) *
    (min (a.y + a.height) (b.y + b.height) - max a.y b.y)

/-- Modelled from the spec: a pair qualifies when the boxes overlap and
the intersection exceeds 10% of the smaller box's area (§4.5). -/
def overlapHit (a b : ElementSnapshot) : Bool :=
  boxesOverlap a.bbox b.bbox &&
    decide ((1 / 10) * min (a.bbox.width * a.bbox.height) (b.bbox.width * b.bbox.height)
      < interArea a.bbox b.bbox)

/-- Modelled from the spec: every unordered pair considered exactly once,
in list order (§4.5). -/
def overlapPairs : List ElementSnapshot → List (ElementSnapshot × ElementSnapshot)
  | [] => []
  | e :: rest => ((rest.filter fun b => overlapHit e b).map fun b => (e, b)) ++ overlapPairs rest

/-- Modelled from the spec: the overlap detector — each qualifying pair
is one `medium` issue (−8) represented by the first element's box (§4.5);
zero-size elements are skipped (§3). -/
def overlapAnalyze (elems : List ElementSnapshot) : ℚ × List Issue :=
  let pairs := overlapPairs (elems.filter sizedEl)
  (max 0 (100 - 8 * pairs.length),
   pairs.map fun p =>
     { type := "overlap", selector := p.1.selector, bbox := p.1.bbox, severity := "medium"
       message := "Elements " ++ p.1.selector ++ " and " ++ p.2.selector ++ " overlap" })

/-- Modelled from the spec: the 1000x800 density region of an element
(§4.6). -/
def regionKey (e : ElementSnapshot) : ℤ × ℤ :=
  (⌊e.bbox.x / 1000⌋, ⌊e.bbox.y / 800⌋)

/-- Region keys in order of first occurrence. -/
def firstKeys (l : List (ℤ × ℤ)) : List (ℤ × ℤ) :=
  l.foldl (fun acc k => if k ∈ acc then acc else acc ++ [k]) []

/-- Modelled from the spec: the density analyzer — interactive elements
binned into fixed 1000x800 regions, each region holding more than 20 of
them yielding one `medium` issue (−15) represented by the region's first
element (§4.6). -/
def densityAnalyze (elems : List ElementSnapshot) : ℚ × List Issue :=
  let inter := elems.filter fun e => sizedEl e && isInteractive e.selector
  let offending := (firstKeys (inter.map regionKey)).filter fun k =>
    20 < inter.countP fun e => regionKey e = k
  (max 0 (100 - 15 * offending.length),
   offending.filterMap fun k =>
     (inter.find? fun e => regionKey e = k).map fun e =>
       { type := "density", selector := e.selector, bbox := e.bbox, severity := "medium"
         message := "More than 20 interactive elements clustered in one region" })

/-- Modelled from the spec: row assignment of the alignment analyzer —
an element joins the first row whose stored `y` is within 20px, else
starts a new row (§4.7). -/
def addToRows (rows : List (ℚ × List ElementSnapshot)) (e : ElementSnapshot) :
    List (ℚ × List ElementSnapshot) :=
  match rows with
  | [] => [(e.bbox.y, [e])]
  | (ry, es) :: rest =>
      if |ry - e.bbox.y| ≤ 20 then (ry, es ++ [e]) :: rest
      else (ry, es) :: addToRows rest e

/-- Rows built over the element list in order. -/
def buildRows (elems : List ElementSnapshot) : List (ℚ × List ElementSnapshot) :=
  elems.foldl addToRows []

/-- Maximum of a rational list, 0 when empty. -/
def maxQOrZero : List ℚ → ℚ
  | [] => 0
  | x :: xs => xs.foldl max x

/-- Left-edge deviation of a row: maximal distance of an `x` from the
row's minimal `x` (§4.7). -/
def rowDeviation (es : List ElementSnapshot) : ℚ :=
  maxQOrZero (es.map fun e => e.bbox.x) - minQOrZero (es.map fun e => e.bbox.x)

/-- Modelled from the spec: the alignment analyzer — rows of at least 3
elements whose left-edge deviation exceeds 8px yield one `low` issue
(−5) per row, represented by the first row element (§4.7); zero-size
elements are skipped (§3). -/
def alignmentAnalyze (elems : List ElementSnapshot) : ℚ × List Issue :=
  let offending := (buildRows (elems.filter sizedEl)).filter fun r =>
    3 ≤ r.2.length && decide (8 < rowDeviation r.2)
  (max 0 (100 - 5 * offending.length),
   offending.filterMap fun r =>
     r.2.head?.map fun e =>
       { type := "alignment", selector := e.selector, bbox := e.bbox, severity := "low"
         message := "Row elements deviate by more than 8px from the common left edge" })

/-- Modelled from the spec: the aggregation core of the missing engine —
the six analyzers run independently, their issues are concatenated in the
fixed order contrast, typography, tap-target, overlap, density,
alignment, and the score is the weighted sum (weights 0.25, 0.20, 0.15,
0.15, 0.15, 0.10) truncated to an integer and clamped to `[0,100]`
(§4.8; every sub-score is nonnegative, so the floor below coincides with
Python's truncation toward zero, and after the clamp at 0 the two agree
on all real inputs). -/
noncomputable def analyzeCore (dom : String) (snap : Snapshot) (vp : Viewport) : VisualReport :=
  let con := contrastAnalyze snap
  let typ := typographyAnalyze (isMobileVp vp) snap
  let tap := tapTargetAnalyze vp snap.elements
  let ovl := overlapAnalyze snap.elements
  let den := densityAnalyze snap.elements
  let ali := alignmentAnalyze snap.elements
  let weighted : ℝ :=
    con.1 * 0.25 + (typ.1 : ℝ) * 0.20 + (tap.1 : ℝ) * 0.15 + (ovl.1 : ℝ) * 0.15 +
      (den.1 : ℝ) * 0.15 + (ali.1 : ℝ) * 0.10
  let issues := con.2 ++ typ.2 ++ tap.2 ++ ovl.2 ++ den.2 ++ ali.2
  { score := min 100 (max 0 ⌊weighted⌋)
    issues := issues
    features :=
      [("contrast_score", con.1), ("typography_score", (typ.1 : ℝ)),
       ("tap_target_score", (tap.1 : ℝ)), ("overlap_score", (ovl.1 : ℝ)),
       ("density_score", (den.1 : ℝ)), ("alignment_score", (ali.1 : ℝ)),
       ("viewport_width", (vp.width : ℝ)), ("viewport_height", (vp.height : ℝ)),
       ("is_mobile", if isMobileVp vp then 1 else 0),
       ("total_elements", (snap.elements.length : ℝ)), ("total_issues", (issues.length : ℝ))] }

/-- Modelled from the spec: the fixed-failure report the entry point
degrades to — score 0, a single `error`/`high` issue carrying the failure
description, empty feature map (§7). -/
def fixedFailureReport (msg : String) : VisualReport :=
  { score := 0
    issues := [{ type := "error", selector := "", bbox := {}, severity := "high"
                 message := "Analysis failed: " ++ msg }]
    features := [] }

/-- Modelled from the spec: the exception guard of the entry point — a
guarded core computation that signals failure is replaced by the
fixed-failure report, so the caller always receives a report (§7). -/
def guardReport (core : String → Snapshot → Viewport → Except String VisualReport)
    (dom : String) (snap : Snapshot) (vp : Viewport) : VisualReport :=
  match core dom snap vp with
  | .ok r => r
  | .error e => fixedFailureReport e

/-- Modelled from the spec: the `analyze_visual` entry point — the pure
aggregation core behind the exception guard (§4.8, §7). -/
noncomputable def analyzeVisual (dom : String) (snap : Snapshot) (vp : Viewport) : VisualReport :=
  guardReport (fun d s v => .ok (analyzeCore d s v)) dom snap vp

/-- A fixed element set holding one interactive element below the 44px
touch-target minimum (a 30x25px anchor), used to exercise the mobile
gate. -/
def tapSample : List ElementSnapshot :=
  [{ selector := "a", text := "Small", styles := {}, bbox := { x := 10, y := 10, width := 30, height := 25 } }]

/-- A fixed text element whose styles carry a 16px font size and the
tight unitless line height 1, used to exercise the per-element
line-height rule. -/
def lhSample : ElementSnapshot :=
  { selector := "p", text := "x"
    styles := { fontSize := some (.lit 16 (some .px)), lineHeight := some (.unitless 1) }
    bbox := { x := 0, y := 0, width := 100, height := 20 } }

/-! ## Supporting lemmas -/

/-- The gamma correction is nonnegative on nonnegative input. -/
lemma srgbGamma_nonneg {c : ℝ} (hc : 0 ≤ c) : 0 ≤ srgbGamma c := by
  unfold srgbGamma
  split_ifs
  · positivity
  · positivity

/-- Relative luminance is nonnegative. -/
lemma relLuminance_nonneg (c : RGB) : 0 ≤ relLuminance c := by
  unfold relLuminance
  have h1 := srgbGamma_nonneg (c := (c.r : ℝ) / 255) (by positivity)
  have h2 := srgbGamma_nonneg (c := (c.g : ℝ) / 255) (by positivity)
  have h3 := srgbGamma_nonneg (c := (c.b : ℝ) / 255) (by positivity)
  nlinarith

/-! ## Claim theorems -/

/-- C8: for a fixed input, two calls of `analyze_visual_clarity` —
repeated calls on the same analyzer instance included — return the same
report: the instance state left by any earlier call is discarded by the
`self.issues` reset, so the returned score, issue list and per-analyzer
scores depend only on `page_data`. -/
theorem analysisRepeatIdentical (oracle : ContrastOracle) (st st' : AnalyzerState)
    (pd : PageDataOld) :
    (analyzeVisualClarity oracle st pd).2 = (analyzeVisualClarity oracle st' pd).2 ∧
      (analyzeVisualClarity oracle (analyzeVisualClarity oracle st pd).1 pd).2 =
        (analyzeVisualClarity oracle st pd).2 :=
  ⟨rfl, rfl⟩

/-- C9: the contrast analysis depends only on the first 10 CTAs and the
first 5 headings — truncating the input lists to those prefixes changes
neither the contrast sub-score nor the contrast issues. -/
theorem contrastExaminesPrefixesOnly (oracle : ContrastOracle) (pd : PageDataOld) :
    analyzeWcagContrast oracle pd =
      analyzeWcagContrast oracle
        { pd with ctas := pd.ctas.take 10, headings := pd.headings.take 5 } := by
  simp [analyzeWcagContrast, List.take_take]

/-- C1: the `analyze_visual` entry point's overall score is the weighted
sum of the six sub-scores — contrast 0.25, typography 0.20, tap-target
0.15, overlap 0.15, density 0.15, alignment 0.10 — truncated to an
integer and clamped to `[0, 100]`. -/
theorem overallScoreIsWeightedSum (dom : String) (snap : Snapshot) (vp : Viewport) :
    (analyzeVisual dom snap vp).score =
      min 100 (max 0
        ⌊(contrastAnalyze snap).1 * 0.25 +
          ((typographyAnalyze (isMobileVp vp) snap).1 : ℝ) * 0.20 +
          ((tapTargetAnalyze vp snap.elements).1 : ℝ) * 0.15 +
          ((overlapAnalyze snap.elements).1 : ℝ) * 0.15 +
          ((densityAnalyze snap.elements).1 : ℝ) * 0.15 +
          ((alignmentAnalyze snap.elements).1 : ℝ) * 0.10⌋) :=
  rfl

/-- C4: the guarded entry point never propagates an internal failure —
whenever the guarded core signals one, the caller receives the
fixed-failure report: score 0, exactly one `error`/`high` issue whose
message carries the failure description, and an empty feature map. -/
theorem entryPointDegradesOnFailure
    (core : String → Snapshot → Viewport → Except String VisualReport)
    (dom : String) (snap : Snapshot) (vp : Viewport) (e : String)
    (h : core dom snap vp = .error e) :
    guardReport core dom snap vp = fixedFailureReport e ∧
      (guardReport core dom snap vp).score = 0 ∧
      (guardReport core dom snap vp).issues =
        [{ type := "error", selector := "", bbox := {}, severity := "high"
           message := "Analysis failed: " ++ e }] ∧
      (guardReport core dom snap vp).features = [] := by
  unfold guardReport
  rw [h]
  exact ⟨rfl, rfl, rfl, rfl⟩

/-- Witness for C4 at a concretely failing core. -/
theorem entryPointDegradesOnFailure_w :
    ((fun (_ : String) (_ : Snapshot) (_ : Viewport) =>
        (Except.error "boom" : Except String VisualReport)) "" {} ⟨1920, 1080⟩ =
      Except.error "boom") ∧
      guardReport (fun _ _ _ => Except.error "boom") "" {} ⟨1920, 1080⟩ =
        fixedFailureReport "boom" :=
  ⟨rfl, (entryPointDegradesOnFailure _ "" {} ⟨1920, 1080⟩ "boom" rfl).1⟩

/-- C3: the contrast-ratio computation is exactly
`(max(L1,L2)+0.05) / (min(L1,L2)+0.05)` over the WCAG relative
luminances; white against black gives 21 and any color against itself
gives 1. -/
theorem contrastRatioExact :
    (∀ c1 c2 : RGB,
        wcagContrast c1 c2 =
          (max (relLuminance c1) (relLuminance c2) + 0.05) /
            (min (relLuminance c1) (relLuminance c2) + 0.05)) ∧
      wcagContrast ⟨255, 255, 255⟩ ⟨0, 0, 0⟩ = 21 ∧
      (∀ c : RGB, wcagContrast c c = 1) := by
  refine ⟨fun c1 c2 => rfl, ?_, fun c => ?_⟩
  · have hw : relLuminance ⟨255, 255, 255⟩ = 1 := by
      unfold relLuminance srgbGamma
      norm_num [Real.one_rpow]
    have hb : relLuminance ⟨0, 0, 0⟩ = 0 := by
      unfold relLuminance srgbGamma
      norm_num
    unfold wcagContrast
    rw [hw, hb]
    norm_num
  · have h := relLuminance_nonneg c
    unfold wcagContrast
    rw [max_self, min_self]
    rw [div_self (by linarith)]

/-- Penalty of one CTA contrast step is nonnegative. -/
lemma ctaContrastStep_fst_nonneg (o : ContrastOracle) (c : CtaOld) :
    0 ≤ (ctaContrastStep o c).1 := by
  unfold ctaContrastStep
  dsimp only
  split
  · split
    · norm_num
    · split_ifs <;> norm_num
  · norm_num

/-- Penalty of one heading contrast step is nonnegative. -/
lemma headingContrastStep_fst_nonneg (o : ContrastOracle) (cs : List (String × StylesOld))
    (hd : HeadingOld) : 0 ≤ (headingContrastStep o cs hd).1 := by
  unfold headingContrastStep
  dsimp only
  split
  · norm_num
  · split
    · split_ifs <;> norm_num
    · norm_num

/-- Sum of the first components of a mapped step function is
nonnegative when each step's penalty is. -/
lemma sum_fst_nonneg {α β : Type _} (f : α → ℚ × β) (l : List α) (h : ∀ a, 0 ≤ (f a).1) :
    0 ≤ ((l.map f).map Prod.fst).sum := by
  apply List.sum_nonneg
  intro x hx
  simp only [List.map_map, List.mem_map, Function.comp] at hx
  obtain ⟨a, -, rfl⟩ := hx
  exact h a

/-- Bounds of the floored-at-zero score pattern `max 0 (100 - p)`. -/
lemma max_sub_bounds {p : ℚ} (hp : 0 ≤ p) : 0 ≤ max 0 (100 - p) ∧ max 0 (100 - p) ≤ 100 :=
  ⟨le_max_left _ _, max_le (by norm_num) (by linarith)⟩

/-- The contrast sub-score lies in `[0, 100]`. -/
lemma analyzeWcagContrast_bounds (o : ContrastOracle) (pd : PageDataOld) :
    0 ≤ (analyzeWcagContrast o pd).1 ∧ (analyzeWcagContrast o pd).1 ≤ 100 := by
  unfold analyzeWcagContrast
  refine max_sub_bounds ?_
  have h1 := sum_fst_nonneg (ctaContrastStep o) (pd.ctas.take 10)
    (ctaContrastStep_fst_nonneg o)
  have h2 := sum_fst_nonneg (headingContrastStep o pd.computedStyles) (pd.headings.take 5)
    (headingContrastStep_fst_nonneg o pd.computedStyles)
  linarith

/-- The typography sub-score lies in `[0, 100]`. -/
lemma analyzeTypographyDetailed_bounds (pd : PageDataOld) :
    0 ≤ (analyzeTypographyDetailed pd).1 ∧ (analyzeTypographyDetailed pd).1 ≤ 100 := by
  unfold analyzeTypographyDetailed
  refine max_sub_bounds ?_
  have hlh : (0 : ℚ) ≤ ((analyzeLineHeight pd.computedStyles).1 : ℚ) := by positivity
  split_ifs <;> linarith

/-- Penalty of one CTA visibility step is nonnegative. -/
lemma ctaVisStep_fst_nonneg (b : Bool) (i : ℕ) (c : CtaOld) : 0 ≤ (ctaVisStep b i c).1 := by
  unfold ctaVisStep
  dsimp only
  split_ifs <;> norm_num

/-- The CTA-visibility sub-score lies in `[0, 100]`. -/
lemma analyzeCtaVisibility_bounds (pd : PageDataOld) :
    0 ≤ (analyzeCtaVisibility pd).1 ∧ (analyzeCtaVisibility pd).1 ≤ 100 := by
  unfold analyzeCtaVisibility
  split
  · norm_num
  · refine max_sub_bounds ?_
    have hs := sum_fst_nonneg (fun p : ℕ × CtaOld =>
        ctaVisStep (¬(pd.ctas.filter (·.aboveFold)).isEmpty) p.1 p.2)
      (pd.ctas.take 5).enum (fun a => ctaVisStep_fst_nonneg _ a.1 a.2)
    split_ifs <;> linarith

/-- The layout sub-score lies in `[0, 100]`. -/
lemma analyzeLayoutHeuristics_bounds (pd : PageDataOld) :
    0 ≤ (analyzeLayoutHeuristics pd).1 ∧ (analyzeLayoutHeuristics pd).1 ≤ 100 :=
  ⟨le_min (by norm_num) (le_max_left _ _), min_le_left _ _⟩

/-- The spacing sub-score lies in `[0, 100]`. -/
lemma analyzeSpacingDensity_bounds (pd : PageDataOld) :
    0 ≤ (analyzeSpacingDensity pd).1 ∧ (analyzeSpacingDensity pd).1 ≤ 100 := by
  unfold analyzeSpacingDensity
  refine max_sub_bounds ?_
  split_ifs <;> norm_num

/-- The accessibility sub-score lies in `[0, 100]`. -/
lemma analyzeVisualAccessibility_bounds (pd : PageDataOld) :
    0 ≤ (analyzeVisualAccessibility pd).1 ∧ (analyzeVisualAccessibility pd).1 ≤ 100 := by
  unfold analyzeVisualAccessibility
  dsimp only
  have halt : (0 : ℚ) ≤ (pd.images.countP fun im => im.alt.trim = "") := by positivity
  have hmin : (0 : ℚ) ≤ min (20 : ℚ) (3 * ((pd.images.countP fun im => im.alt.trim = "") : ℚ)) := by
    apply le_min
    · norm_num
    · linarith
  constructor
  · exact le_max_left _ _
  · refine max_le (by norm_num) ?_
    split_ifs <;> linarith

/-- Round-half-to-even keeps `[0, 1000]`. -/
lemma roundHalfEven_bounds {y : ℚ} (h0 : 0 ≤ y) (h1 : y ≤ 1000) :
    (0 : ℤ) ≤ roundHalfEven y ∧ roundHalfEven y ≤ 1000 := by
  unfold roundHalfEven
  have hf0 : (0 : ℤ) ≤ ⌊y⌋ := Int.floor_nonneg.mpr h0
  split_ifs with hhalf heven
  · refine ⟨hf0, ?_⟩
    have h2 : (⌊y⌋ : ℚ) ≤ 1000 := le_trans (Int.floor_le y) h1
    exact_mod_cast h2
  · refine ⟨by linarith, ?_⟩
    have hq : (⌊y⌋ : ℚ) = y - 1 / 2 := by linarith
    have h3 : (⌊y⌋ : ℚ) < 1000 := by rw [hq]; linarith
    have h4 : ⌊y⌋ < 1000 := by exact_mod_cast h3
    omega
  · rw [round_eq]
    constructor
    · exact Int.floor_nonneg.mpr (by linarith)
    · rw [Int.floor_le_iff]
      push_cast
      linarith

/-- Python's `round(x, 1)` keeps `[0, 100]`. -/
lemma pythonRound1_bounds {x : ℚ} (h0 : 0 ≤ x) (h1 : x ≤ 100) :
    0 ≤ pythonRound1 x ∧ pythonRound1 x ≤ 100 := by
  unfold pythonRound1
  obtain ⟨a, b⟩ := roundHalfEven_bounds (y := x * 10) (by linarith) (by linarith)
  have ha : (0 : ℚ) ≤ (roundHalfEven (x * 10) : ℚ) := by exact_mod_cast a
  have hb : ((roundHalfEven (x * 10) : ℤ) : ℚ) ≤ 1000 := by exact_mod_cast b
  constructor <;> linarith

/-- C5: every score the analysis produces lies in `[0, 100]`: the overall
`visual_score` of `analyze_visual_clarity`, each of its six per-analyzer
sub-scores (the bonus-adding layout analyzer included, whose result is
clamped to at most 100), and the clamped integer score of the modelled
`analyze_visual` engine. -/
theorem analysisScoreBounds (oracle : ContrastOracle) (st : AnalyzerState) (pd : PageDataOld)
    (dom : String) (snap : Snapshot) (vp : Viewport) :
    (0 ≤ ((analyzeVisualClarity oracle st pd).2).visualScore ∧
        ((analyzeVisualClarity oracle st pd).2).visualScore ≤ 100) ∧
      (0 ≤ ((analyzeVisualClarity oracle st pd).2).contrastScore ∧
        ((analyzeVisualClarity oracle st pd).2).contrastScore ≤ 100) ∧
      (0 ≤ ((analyzeVisualClarity oracle st pd).2).typographyScore ∧
        ((analyzeVisualClarity oracle st pd).2).typographyScore ≤ 100) ∧
      (0 ≤ ((analyzeVisualClarity oracle st pd).2).ctaScore ∧
        ((analyzeVisualClarity oracle st pd).2).ctaScore ≤ 100) ∧
      (0 ≤ ((analyzeVisualClarity oracle st pd).2).layoutScore ∧
        ((analyzeVisualClarity oracle st pd).2).layoutScore ≤ 100) ∧
      (0 ≤ ((analyzeVisualClarity oracle st pd).2).spacingScore ∧
        ((analyzeVisualClarity oracle st pd).2).spacingScore ≤ 100) ∧
      (0 ≤ ((analyzeVisualClarity oracle st pd).2).accessibilityScore ∧
        ((analyzeVisualClarity oracle st pd).2).accessibilityScore ≤ 100) ∧
      (0 ≤ (analyzeVisual dom snap vp).score ∧ (analyzeVisual dom snap vp).score ≤ 100) := by
  have hc := analyzeWcagContrast_bounds oracle pd
  have ht := analyzeTypographyDetailed_bounds pd
  have hcta := analyzeCtaVisibility_bounds pd
  have hl := analyzeLayoutHeuristics_bounds pd
  have hsp := analyzeSpacingDensity_bounds pd
  have ha := analyzeVisualAccessibility_bounds pd
  refine ⟨?_, hc, ht, hcta, hl, hsp, ha, ?_⟩
  · show 0 ≤ pythonRound1 _ ∧ pythonRound1 _ ≤ 100
    refine pythonRound1_bounds ?_ ?_
    · nlinarith [hc.1, ht.1, hcta.1, hl.1, hsp.1, ha.1]
    · nlinarith [hc.2, ht.2, hcta.2, hl.2, hsp.2, ha.2]
  · show 0 ≤ min 100 (max 0 _) ∧ min 100 (max 0 _) ≤ 100
    exact ⟨le_min (by norm_num) (le_max_left _ _), min_le_left _ _⟩

/-- C10: when the external contrast-ratio computation fails for a color
pair, `_calculate_wcag_contrast` returns the fallback 4.5; a CTA whose
colors resolve to such a pair can then only receive a `low` contrast
issue (never a below-AA `high`/`medium` one, for large or normal text),
and a heading resolving to such a pair receives no contrast issue at
all. -/
theorem contrastOracleFallback (oracle : ContrastOracle) (c1 c2 : RGB)
    (h : oracle c1 c2 = none) :
    calculateWcagContrast oracle c1 c2 = 9 / 2 ∧
      (∀ cta : CtaOld,
        parseColorToRgb (cta.styles.backgroundColor.getD (.rgbFmt 255 255 255)) = some c1 →
        parseColorToRgb (cta.styles.color.getD (.rgbFmt 0 0 0)) = some c2 →
        ∀ i ∈ (ctaContrastStep oracle cta).2, i.severity ≠ "high" ∧ i.severity ≠ "medium") ∧
      (∀ (cs : List (String × StylesOld)) (hd : HeadingOld) (st : StylesOld),
        lookupStyles hd.tag.toLower cs = some st →
        parseColorToRgb (st.backgroundColor.getD (.rgbFmt 255 255 255)) = some c1 →
        parseColorToRgb (st.color.getD (.rgbFmt 0 0 0)) = some c2 →
        (headingContrastStep oracle cs hd).2 = []) := by
  have hval : calculateWcagContrast oracle c1 c2 = 9 / 2 := by
    unfold calculateWcagContrast
    rw [h]
    rfl
  refine ⟨hval, ?_, ?_⟩
  · intro cta hbg hfg i hi
    unfold ctaContrastStep at hi
    dsimp only at hi
    rw [hbg, hfg] at hi
    dsimp only at hi
    rcases hfs : parseFontSize (cta.styles.fontSize.getD (.lit 16 (some .px))) with - | fs <;>
      rw [hfs] at hi <;> dsimp only at hi
    · simp at hi
    · rw [hval] at hi
      split_ifs at hi <;> try norm_num at *
      all_goals simp_all
  · intro cs hd st hst hbg hfg
    unfold headingContrastStep
    dsimp only
    rw [hst]
    dsimp only
    rw [hbg, hfg]
    dsimp only
    rw [hval]
    rw [if_neg (by norm_num)]

/-- Witness for C10 at a concretely failing oracle and the default
white/black pair. -/
theorem contrastOracleFallback_w :
    ((fun _ _ => none : ContrastOracle) ⟨255, 255, 255⟩ ⟨0, 0, 0⟩ = none) ∧
      calculateWcagContrast (fun _ _ => none) ⟨255, 255, 255⟩ ⟨0, 0, 0⟩ = 9 / 2 :=
  ⟨rfl, (contrastOracleFallback (fun _ _ => none) ⟨255, 255, 255⟩ ⟨0, 0, 0⟩ rfl).1⟩

/-- Every issue of the engine's contrast analyzer is a `contrast`
issue. -/
lemma contrastAnalyze_types (snap : Snapshot) :
    ∀ i ∈ (contrastAnalyze snap).2, i.type = "contrast" := by
  intro i hi
  simp only [contrastAnalyze, List.mem_filterMap, Option.map_eq_some'] at hi
  obtain ⟨e, -, sev, -, rfl⟩ := hi
  rfl

/-- Every issue of the engine's typography analyzer is a `typography`
issue. -/
lemma typographyAnalyze_types (mobile : Bool) (snap : Snapshot) :
    ∀ i ∈ (typographyAnalyze mobile snap).2, i.type = "typography" := by
  intro i hi
  simp only [typographyAnalyze, List.mem_flatten, List.mem_map] at hi
  obtain ⟨l, ⟨p, hp, rfl⟩, hil⟩ := hi
  simp only [List.mem_map] at hil
  obtain ⟨f, -, rfl⟩ := hil
  rfl

/-- Every issue of the engine's overlap detector is an `overlap`
issue. -/
lemma overlapAnalyze_types (elems : List ElementSnapshot) :
    ∀ i ∈ (overlapAnalyze elems).2, i.type = "overlap" := by
  intro i hi
  simp only [overlapAnalyze, List.mem_map] at hi
  obtain ⟨p, -, rfl⟩ := hi
  rfl

/-- Every issue of the engine's density analyzer is a `density` issue. -/
lemma densityAnalyze_types (elems : List ElementSnapshot) :
    ∀ i ∈ (densityAnalyze elems).2, i.type = "density" := by
  intro i hi
  simp only [densityAnalyze, List.mem_filterMap, Option.map_eq_some'] at hi
  obtain ⟨k, -, e, -, rfl⟩ := hi
  rfl

/-- Every issue of the engine's alignment analyzer is an `alignment`
issue. -/
lemma alignmentAnalyze_types (elems : List ElementSnapshot) :
    ∀ i ∈ (alignmentAnalyze elems).2, i.type = "alignment" := by
  intro i hi
  simp only [alignmentAnalyze, List.mem_filterMap, Option.map_eq_some'] at hi
  obtain ⟨r, -, e, -, rfl⟩ := hi
  rfl

/-- A list whose issues all carry type `t` filters to nothing under a
different type `t'`. -/
lemma filter_type_eq_nil {l : List Issue} {t t' : String} (h : ∀ i ∈ l, i.type = t)
    (hne : t ≠ t') : (l.filter fun i => i.type = t') = [] := by
  rw [List.filter_eq_nil_iff]
  intro a ha
  simp [h a ha, hne]

/-- C2: the tap-target analysis is a no-op — sub-score 100 and no issues,
hence no `tap_target` issue anywhere in the entry point's report — for
every viewport of width at least 768; on the fixed element set
`tapSample`, which holds a sub-44px interactive element, tap-target
issues are produced for every viewport width below 768 and are absent at
width 768 and above. -/
theorem tapTargetMobileGate :
    (∀ (dom : String) (snap : Snapshot) (w h : ℕ), 768 ≤ w →
        tapTargetAnalyze ⟨w, h⟩ snap.elements = (100, []) ∧
          ((analyzeVisual dom snap ⟨w, h⟩).issues.filter fun i => i.type = "tap_target") = []) ∧
      (∀ w h : ℕ, w < 768 → (tapTargetAnalyze ⟨w, h⟩ tapSample).2 ≠ [] ∧
        ∀ i ∈ (tapTargetAnalyze ⟨w, h⟩ tapSample).2, i.type = "tap_target") ∧
      (∀ w h : ℕ, 768 ≤ w → (tapTargetAnalyze ⟨w, h⟩ tapSample).2 = []) := by
  have hgate : ∀ (w h : ℕ) (elems : List ElementSnapshot), 768 ≤ w →
      tapTargetAnalyze ⟨w, h⟩ elems = (100, []) := by
    intro w h elems hw
    unfold tapTargetAnalyze
    rw [if_pos]
    simp only [isMobileVp, decide_eq_true_eq]
    show ¬w < 768
    omega
  refine ⟨fun dom snap w h hw => ⟨hgate w h snap.elements hw, ?_⟩, fun w h hw => ?_, ?_⟩
  · have hiss : (analyzeVisual dom snap ⟨w, h⟩).issues =
        (contrastAnalyze snap).2 ++ (typographyAnalyze (isMobileVp ⟨w, h⟩) snap).2 ++
          (tapTargetAnalyze ⟨w, h⟩ snap.elements).2 ++ (overlapAnalyze snap.elements).2 ++
          (densityAnalyze snap.elements).2 ++ (alignmentAnalyze snap.elements).2 := rfl
    rw [hiss, hgate w h snap.elements hw]
    simp only [List.filter_append, List.append_eq_nil]
    refine ⟨⟨⟨⟨⟨?_, ?_⟩, ?_⟩, ?_⟩, ?_⟩, ?_⟩
    · exact filter_type_eq_nil (contrastAnalyze_types snap) (by decide)
    · exact filter_type_eq_nil (typographyAnalyze_types _ snap) (by decide)
    · simp
    · exact filter_type_eq_nil (overlapAnalyze_types snap.elements) (by decide)
    · exact filter_type_eq_nil (densityAnalyze_types snap.elements) (by decide)
    · exact filter_type_eq_nil (alignmentAnalyze_types snap.elements) (by decide)
  · have hmob : (tapTargetAnalyze ⟨w, h⟩ tapSample).2 =
        tapSample.filterMap fun e =>
          ((tapTargetStep e).2).map fun sev =>
            { type := "tap_target", selector := e.selector, bbox := e.bbox, severity := sev
              message := "Interactive element below the 44x44px touch-target minimum" } := by
      unfold tapTargetAnalyze
      rw [if_neg]
      simp only [isMobileVp, decide_eq_true_eq, not_not]
      show w < 768
      omega
    rw [hmob]
    constructor
    · decide
    · intro i hi
      simp only [List.mem_filterMap, Option.map_eq_some'] at hi
      obtain ⟨e, -, sev, -, rfl⟩ := hi
      rfl
  · intro w h hw
    rw [hgate w h tapSample hw]

/-- Witness for C2 at the boundary width 768 and a mobile width 375. -/
theorem tapTargetMobileGate_w :
    (768 ≤ 768 ∧ tapTargetAnalyze ⟨768, 1024⟩ tapSample = (100, [])) ∧
      (375 < 768 ∧ (tapTargetAnalyze ⟨375, 667⟩ tapSample).2 ≠ []) :=
  ⟨⟨by norm_num, (tapTargetMobileGate.1 "" { elements := tapSample } 768 1024 (by norm_num)).1⟩,
   ⟨by norm_num, (tapTargetMobileGate.2.1 375 667 (by norm_num)).1⟩⟩

/-- C6: for every examined text element the contrast analyzer's decision
follows the WCAG thresholds exactly — a ratio below AA (3.0 large / 4.5
normal) yields severity `high` with penalty 15 when the ratio is under
3.0 and otherwise `medium` with penalty 10; a ratio at or above AA but
below AAA (4.5 large / 7.0 normal) yields a `low` finding with penalty 3
— and the per-element analysis is exactly this decision applied to the
element's large-text flag and contrast ratio. -/
theorem contrastThresholdRule (large : Bool) (r : ℝ) :
    (r < (if large then (3 : ℝ) else 4.5) →
        contrastDecision large r =
          ((if r < 3 then (15 : ℝ) else 10), some (if r < 3 then "high" else "medium"))) ∧
      ((if large then (3 : ℝ) else 4.5) ≤ r → r < (if large then (4.5 : ℝ) else 7) →
        contrastDecision large r = (3, some "low")) ∧
      (∀ (snap : Snapshot) (e : ElementSnapshot) (fg bg : RGB), e.text ≠ "" →
        resolveFg (effStyles snap e) = some fg → resolveBg (effStyles snap e) = some bg →
        contrastStep snap e =
          contrastDecision (isLargeText (effStyles snap e)) (wcagContrast fg bg)) := by
  refine ⟨fun h1 => ?_, fun h1 h2 => ?_, fun snap e fg bg ht hf hb => ?_⟩
  · unfold contrastDecision
    rw [if_pos h1]
    split_ifs <;> rfl
  · unfold contrastDecision
    rw [if_neg (not_lt.mpr h1), if_pos h2]
  · unfold contrastStep
    rw [if_neg ht]
    dsimp only
    rw [hf, hb]

/-- Witness for C6 at normal text and ratio 2. -/
theorem contrastThresholdRule_w :
    ((2 : ℝ) < 4.5 ∧ contrastDecision false 2 = (15, some "high")) ∧
      ((4.5 : ℝ) ≤ 5 ∧ (5 : ℝ) < 7 ∧ contrastDecision false 5 = (3, some "low")) := by
  constructor
  · refine ⟨by norm_num, ?_⟩
    have h := (contrastThresholdRule false 2).1 (by norm_num)
    rw [h]
    norm_num
  · refine ⟨by norm_num, by norm_num, ?_⟩
    exact (contrastThresholdRule false 5).2.1 (by norm_num) (by norm_num)

/-- C7: for every examined element the typography analyzer resolves the
element's line height to a unitless ratio — `normal` to 1.2, a `px`
value divided by the font size in pixels, a `%` value divided by 100, a
unitless value as-is — and applies the 1.3 threshold to it: every
text-bearing element's analysis is exactly the three additive checks
with the line-height check applied to the element's resolved ratio, and
an element whose ratio resolves below 1.3 receives exactly one `medium`
line-height finding contributing exactly 5 to the penalty (none at 1.3
or more). -/
theorem lineHeightResolutionRule (fontPx v r : ℚ) :
    parseLineHeightSpec .normal fontPx = some (6 / 5) ∧
      parseLineHeightSpec (.pxVal v) fontPx = some (v / fontPx) ∧
      parseLineHeightSpec (.percentVal v) fontPx = some (v / 100) ∧
      parseLineHeightSpec (.unitless v) fontPx = some v ∧
      (∀ (snap : Snapshot) (e : ElementSnapshot) (lh : LineHeightStr),
        (effStyles snap e).lineHeight = some lh →
        elemLineHeightRatio snap e = parseLineHeightSpec lh (elemFontPx snap e)) ∧
      (r < 13 / 10 →
        lineHeightCheck (some r) = (5, [("medium", "Line height below 1.3 is too tight")])) ∧
      (13 / 10 ≤ r → lineHeightCheck (some r) = (0, [])) ∧
      (∀ (mobile : Bool) (snap : Snapshot) (e : ElementSnapshot), e.text ≠ "" →
        typographyStep mobile snap e =
          ((fontSizeCheck mobile (elemFontPx snap e)).1 +
              (lineHeightCheck (elemLineHeightRatio snap e)).1 +
              (lineLengthCheck e.bbox.width (elemFontPx snap e)).1,
            (fontSizeCheck mobile (elemFontPx snap e)).2 ++
              (lineHeightCheck (elemLineHeightRatio snap e)).2 ++
              (lineLengthCheck e.bbox.width (elemFontPx snap e)).2)) ∧
      (∀ (mobile : Bool) (snap : Snapshot) (e : ElementSnapshot) (rr : ℚ), e.text ≠ "" →
        elemLineHeightRatio snap e = some rr → rr < 13 / 10 →
        typographyStep mobile snap e =
          ((fontSizeCheck mobile (elemFontPx snap e)).1 + 5 +
              (lineLengthCheck e.bbox.width (elemFontPx snap e)).1,
            (fontSizeCheck mobile (elemFontPx snap e)).2 ++
              [("medium", "Line height below 1.3 is too tight")] ++
              (lineLengthCheck e.bbox.width (elemFontPx snap e)).2)) := by
  refine ⟨rfl, rfl, rfl, rfl, fun snap e lh h => ?_, fun h => ?_, fun h => ?_,
    fun mobile snap e ht => ?_, fun mobile snap e rr ht hres hr => ?_⟩
  · unfold elemLineHeightRatio
    rw [h]
    rfl
  · unfold lineHeightCheck
    dsimp only
    rw [if_pos h]
  · unfold lineHeightCheck
    dsimp only
    rw [if_neg (not_lt.mpr h)]
  · unfold typographyStep
    rw [if_neg ht]
  · unfold typographyStep
    rw [if_neg ht]
    dsimp only
    rw [hres]
    unfold lineHeightCheck
    dsimp only
    rw [if_pos hr]

/-- Witness for C7 at font size 16, a 20px line height, the tight ratio
1.1, and the fixed element `lhSample` whose line height resolves to the
tight ratio 1. -/
theorem lineHeightResolutionRule_w :
    parseLineHeightSpec (.pxVal 20) 16 = some (20 / 16) ∧
      ((11 / 10 : ℚ) < 13 / 10 ∧
        lineHeightCheck (some (11 / 10)) =
          (5, [("medium", "Line height below 1.3 is too tight")])) ∧
      ("x" ≠ "" ∧ elemLineHeightRatio {} lhSample = some 1 ∧ (1 : ℚ) < 13 / 10 ∧
        typographyStep false {} lhSample =
          (5, [("medium", "Line height below 1.3 is too tight")])) := by
  refine ⟨(lineHeightResolutionRule 16 20 0).2.1,
    ⟨by norm_num, (lineHeightResolutionRule 16 20 (11 / 10)).2.2.2.2.2.1 (by norm_num)⟩,
    ⟨by decide, rfl, by norm_num, ?_⟩⟩
  rw [(lineHeightResolutionRule 16 20 1).2.2.2.2.2.2.2.2 false {} lhSample 1
    (by decide) rfl (by norm_num)]
  norm_num [lhSample, fontSizeCheck, lineLengthCheck, elemFontPx, effStyles,
    lookupEngineStyles, parseFontSizePx, parseFontSize, convertToPixels]

end UiAnalyzer
